import Mathlib

/-!
Shallow embedding of `src/src/c/inteldeflater/IntelDeflater.c` (htsjdk's native
support for `htsjdk.samtools.util.zip.IntelDeflater`): a JNI layer that
dispatches one compression session either to zlib (the Standard backend) or to
Intel's igzip (the Fast backend).

Modelling conventions:
- The external compression libraries (zlib's `deflateInit2`/`deflate`/
  `deflateParams`/`deflateReset` and igzip's `init_stream`/`fast_lz`) are
  out-of-scope collaborators.  Each native call a JNI function makes is
  represented by an oracle value describing that call's outcome
  (`ZRes`, `FastRes`, `ZInitRes`); well-formedness facts about an outcome
  (e.g. "the library cannot consume more than `avail_in` bytes") appear as
  hypotheses where a theorem needs them.
- JNI buffer pinning (`GetPrimitiveArrayCritical`) may fail; this is an
  oracle of two booleans.  The pin/release calls the C code issues are
  recorded in an event trace so that release ordering is provable.
- `assert` (compiled in for debug builds) is modelled as an `assertFailed`
  outcome that aborts the step with no observable state change.
- Machine integers: the C code stores Java `int` fields; lengths and offsets
  are modelled as `Nat` (the claims under study never exercise negative or
  overflowing values), compression level/strategy/flush as `Int` since zlib
  uses negative window bits and the flush constant is compared literally.
- `calloc` is assumed to succeed (the allocation-failure branches of `init`
  are not the object of any claim; note the C even writes `strm->useIGZIP`
  before its null check, so the failure branch is unreachable-sound only
  when allocation succeeds).
-/

namespace IntelDeflater

/-- zlib `Z_NO_FLUSH`. -/
def Z_NO_FLUSH : Int := 0
/-- zlib `Z_SYNC_FLUSH` (the value the Java layer passes for a sync flush;
the C code forwards `flush` verbatim to zlib's `deflate`). -/
def Z_SYNC_FLUSH : Int := 2
/-- zlib `Z_FULL_FLUSH`. -/
def Z_FULL_FLUSH : Int := 3
/-- zlib `Z_FINISH`. -/
def Z_FINISH : Int := 4
/-- `#define FAST_COMPRESSION 1` — the single level igzip supports. -/
def FAST_COMPRESSION : Int := 1
/-- `#define DEF_MEM_LEVEL 8`. -/
def DEF_MEM_LEVEL : Nat := 8
/-- zlib `MAX_WBITS` (15). -/
def MAX_WBITS : Int := 15

/-- Errors the JNI layer can raise (`JNU_Throw*`).  The C file signals the
"unsupported operation" rejections of the spec as `InternalError` with a
fixed message, so they appear here as `internalError` with that message. -/
inductive JError where
  | outOfMemory : JError
  | illegalArgument : JError
  | internalError (msg : String) : JError
  deriving Repr, DecidableEq

/-- Observable state of zlib's `z_stream` as the C file reads/writes it:
running totals, the rolling adler checksum, the diagnostic `msg`, and the
configuration installed by `deflateInit2`. -/
structure ZStreamSt where
  total_in : Nat := 0
  total_out : Nat := 0
  adler : Nat := 1
  msg : String := ""
  level : Int := 0
  strategy : Int := 0
  windowBits : Int := 0
  memLevel : Nat := 0
  deriving Repr, DecidableEq

/-- Observable state of igzip's `LZ_Stream2` as the C file reads/writes it. -/
structure LZStreamSt where
  total_in : Nat := 0
  total_out : Nat := 0
  end_of_stream : Bool := false
  deriving Repr, DecidableEq

/-- The C `Stream` record: `{ z_stream zStream; LZ_Stream2 lz2Stream; int useIGZIP; }`. -/
structure Stream where
  zStream : ZStreamSt
  lz2Stream : LZStreamSt
  useIGZIP : Bool
  deriving Repr, DecidableEq

/-- The Java-side `IntelDeflater` object fields the native code reads and
writes through the cached field IDs (`levelID`, `strategyID`, `setParamsID`,
`finishID`, `finishedID`, `offID`, `lenID`). -/
structure Fields where
  level : Int := 0
  strategy : Int := 0
  setParams : Bool := false
  finish : Bool := false
  finished : Bool := false
  off : Nat := 0
  len : Nat := 0
  deriving Repr, DecidableEq

/-- Outcome of one zlib `deflate`/`deflateParams` call: on progress the
library leaves `avail_in`/`avail_out` at the given values (and advances the
stream totals by the amounts consumed/produced); `Z_BUF_ERROR` means no
progress; any other return carries zlib's diagnostic message. -/
inductive ZRes where
  | zOk (availInAfter availOutAfter : Nat) : ZRes
  | zStreamEnd (availInAfter availOutAfter : Nat) : ZRes
  | zBufError : ZRes
  | zErr (msg : String) : ZRes
  deriving Repr, DecidableEq

/-- Outcome of one igzip `fast_lz` call (which returns `void`): the
`avail_in`/`avail_out` values it leaves behind. -/
structure FastRes where
  availInAfter : Nat
  availOutAfter : Nat
  deriving Repr, DecidableEq

/-- Outcome of `deflateInit2`. -/
inductive ZInitRes where
  | zOk : ZInitRes
  | zMemError : ZInitRes
  | zStreamError : ZInitRes
  | zOther (msg : String) : ZInitRes
  deriving Repr, DecidableEq

/-- Whether the two `GetPrimitiveArrayCritical` pins of one step succeed. -/
structure PinOracle where
  inPinOk : Bool
  outPinOk : Bool
  deriving Repr, DecidableEq

/-- Outcomes of the (at most one) backend call a `deflateBytes` invocation
makes; only the component for the path actually taken is consulted. -/
structure BackendOracle where
  fastRes : FastRes
  paramsRes : ZRes
  deflateRes : ZRes
  deriving Repr, DecidableEq

/-- Pin/release events on the caller's buffers, in program order. -/
inductive PinEv where
  | pinIn | pinOut | releaseIn | releaseOut
  deriving Repr, DecidableEq

/-- Arguments of `deflateBytes` besides the object fields: the output
buffer's offset and capacity and the flush constant. -/
structure StepArgs where
  off : Nat := 0
  len : Nat := 0
  flush : Int := 0
  deriving Repr, DecidableEq

/-- Result of one `deflateBytes` call: the `jint` returned, the pending Java
exception if any, the post-state of the native `Stream` and of the Java
fields, the pin/release trace, and whether a debug `assert` aborted the call. -/
structure StepOut where
  ret : Int
  thrown : Option JError
  strm : Stream
  fields : Fields
  trace : List PinEv
  assertFailed : Bool
  deriving Repr, DecidableEq

/-- `igzip_init_stream`: igzip's documented stream (re)initialisation — a
pure in-memory reset of the `LZ_Stream2` state (external collaborator,
modelled per the spec's "pure in-memory state reset"). -/
def igzip_init_stream : LZStreamSt := {}

/-- `zlib_deflateReset`: zlib's documented `deflateReset` — totals re-zeroed,
adler re-seeded, configuration kept (external collaborator). -/
def zlib_deflateReset (z : ZStreamSt) : ZStreamSt :=
  { z with total_in := 0, total_out := 0, adler := 1, msg := "" }

/-- Result of `Java_htsjdk_samtools_util_zip_IntelDeflater_init`: either the
freshly allocated `Stream` (the returned `jlong` points at it) or a thrown
exception. -/
inductive InitOut where
  | ok (strm : Stream) : InitOut
  | fail (e : JError) : InitOut
  deriving Repr, DecidableEq

/-- `Java_htsjdk_samtools_util_zip_IntelDeflater_init`: allocate a zeroed
`Stream`; if `level == FAST_COMPRESSION && is_sse42_supported()` use igzip
(`init_stream` on the embedded `LZ_Stream2`), else `deflateInit2` the
embedded `z_stream` with the requested level, strategy,
`nowrap ? -MAX_WBITS : MAX_WBITS`, and `DEF_MEM_LEVEL`.  The CPU probe is a
boolean parameter; the `deflateInit2` outcome is the `zinit` oracle. -/
def init (level strategy : Int) (nowrap : Bool) (sse42 : Bool)
    (zinit : ZInitRes) : InitOut :=
  if level = FAST_COMPRESSION ∧ sse42 then
    .ok { zStream := {}, lz2Stream := igzip_init_stream, useIGZIP := true }
  else
    match zinit with
    | .zOk =>
        .ok { zStream :=
                { total_in := 0, total_out := 0, adler := 1, msg := ""
                  level := level, strategy := strategy
                  windowBits := if nowrap then -MAX_WBITS else MAX_WBITS
                  memLevel := DEF_MEM_LEVEL }
              lz2Stream := {}, useIGZIP := false }
    | .zMemError => .fail .outOfMemory
    | .zStreamError => .fail .illegalArgument
    | .zOther msg => .fail (.internalError msg)

/-- `Java_htsjdk_samtools_util_zip_IntelDeflater_deflateBytes`, mirroring the
C control flow branch for branch.  `strm` is the native state behind `addr`,
`f` the Java object's fields, `a` the explicit arguments, `pins` whether each
`GetPrimitiveArrayCritical` succeeds, `orc` the backend-call outcomes. -/
def deflateBytes (strm : Stream) (f : Fields) (a : StepArgs)
    (pins : PinOracle) (orc : BackendOracle) : StepOut :=
  let this_off := f.off
  let this_len := f.len
  if strm.useIGZIP ∧ ((f.setParams ∧ strm.lz2Stream.total_in ≠ 0) ∨ a.flush = 1) then
    -- "igzip doesn't support this": setParams after bytes compressed, or flush == 1
    { ret := 0, thrown := some (.internalError "igzip doesn't support this")
      strm := strm, fields := f, trace := [], assertFailed := false }
  else if strm.useIGZIP then
    if ¬ pins.inPinOk then
      { ret := 0
        thrown := if this_len ≠ 0 then some .outOfMemory else none
        strm := strm, fields := f, trace := [], assertFailed := false }
    else if ¬ pins.outPinOk then
      { ret := 0
        thrown := if a.len ≠ 0 then some .outOfMemory else none
        strm := strm, fields := f
        trace := [.pinIn, .releaseIn], assertFailed := false }
    else if this_len = 0 ∨ a.len = 0 then
      -- assert(strm->lz2Stream.avail_in != 0); assert(... avail_out != 0);
      { ret := 0, thrown := none, strm := strm, fields := f
        trace := [.pinIn, .pinOut], assertFailed := true }
    else
      let consumed := this_len - orc.fastRes.availInAfter
      let produced := a.len - orc.fastRes.availOutAfter
      let lz' : LZStreamSt :=
        { total_in := strm.lz2Stream.total_in + consumed
          total_out := strm.lz2Stream.total_out + produced
          end_of_stream := f.finish }
      { ret := (a.len : Int) - orc.fastRes.availOutAfter
        thrown := none
        strm := { strm with lz2Stream := lz' }
        fields := { f with
          finished := if f.finish then true else f.finished
          off := this_off + (this_len - orc.fastRes.availInAfter)
          len := orc.fastRes.availInAfter }
        trace := [.pinIn, .pinOut, .releaseOut, .releaseIn]
        assertFailed := false }
  else if f.setParams then
    if ¬ pins.inPinOk then
      { ret := 0
        thrown := if this_len ≠ 0 then some .outOfMemory else none
        strm := strm, fields := f, trace := [], assertFailed := false }
    else if ¬ pins.outPinOk then
      { ret := 0
        thrown := if a.len ≠ 0 then some .outOfMemory else none
        strm := strm, fields := f
        trace := [.pinIn, .releaseIn], assertFailed := false }
    else
      match orc.paramsRes with
      | .zOk availIn availOut =>
          let consumed := this_len - availIn
          let produced := a.len - availOut
          { ret := (a.len : Int) - availOut
            thrown := none
            strm := { strm with zStream :=
              { strm.zStream with
                total_in := strm.zStream.total_in + consumed
                total_out := strm.zStream.total_out + produced
                level := f.level, strategy := f.strategy } }
            fields := { f with setParams := false
                               off := this_off + (this_len - availIn)
                               len := availIn }
            trace := [.pinIn, .pinOut, .releaseOut, .releaseIn]
            assertFailed := false }
      | .zBufError =>
          { ret := 0, thrown := none, strm := strm
            fields := { f with setParams := false }
            trace := [.pinIn, .pinOut, .releaseOut, .releaseIn]
            assertFailed := false }
      | .zStreamEnd _ _ =>
          -- falls in the C switch's default branch
          { ret := 0, thrown := some (.internalError strm.zStream.msg)
            strm := strm, fields := f
            trace := [.pinIn, .pinOut, .releaseOut, .releaseIn]
            assertFailed := false }
      | .zErr msg =>
          { ret := 0, thrown := some (.internalError msg)
            strm := { strm with zStream := { strm.zStream with msg := msg } }
            fields := f
            trace := [.pinIn, .pinOut, .releaseOut, .releaseIn]
            assertFailed := false }
  else
    if ¬ pins.inPinOk then
      { ret := 0
        thrown := if this_len ≠ 0 then some .outOfMemory else none
        strm := strm, fields := f, trace := [], assertFailed := false }
    else if ¬ pins.outPinOk then
      { ret := 0
        thrown := if a.len ≠ 0 then some .outOfMemory else none
        strm := strm, fields := f
        trace := [.pinIn, .releaseIn], assertFailed := false }
    else
      -- res = deflate(&strm->zStream, finish ? Z_FINISH : flush);
      match orc.deflateRes with
      | .zStreamEnd availIn availOut =>
          let consumed := this_len - availIn
          let produced := a.len - availOut
          { ret := (a.len : Int) - availOut
            thrown := none
            strm := { strm with zStream :=
              { strm.zStream with
                total_in := strm.zStream.total_in + consumed
                total_out := strm.zStream.total_out + produced } }
            fields := { f with finished := true
                               off := this_off + (this_len - availIn)
                               len := availIn }
            trace := [.pinIn, .pinOut, .releaseOut, .releaseIn]
            assertFailed := false }
      | .zOk availIn availOut =>
          let consumed := this_len - availIn
          let produced := a.len - availOut
          { ret := (a.len : Int) - availOut
            thrown := none
            strm := { strm with zStream :=
              { strm.zStream with
                total_in := strm.zStream.total_in + consumed
                total_out := strm.zStream.total_out + produced } }
            fields := { f with off := this_off + (this_len - availIn)
                               len := availIn }
            trace := [.pinIn, .pinOut, .releaseOut, .releaseIn]
            assertFailed := false }
      | .zBufError =>
          { ret := 0, thrown := none, strm := strm, fields := f
            trace := [.pinIn, .pinOut, .releaseOut, .releaseIn]
            assertFailed := false }
      | .zErr msg =>
          { ret := 0, thrown := some (.internalError msg)
            strm := { strm with zStream := { strm.zStream with msg := msg } }
            fields := f
            trace := [.pinIn, .pinOut, .releaseOut, .releaseIn]
            assertFailed := false }

/-- `Java_htsjdk_samtools_util_zip_IntelDeflater_getAdler`: throws when the
session uses igzip, else reads `zStream.adler`.  (In the igzip branch the C
function falls off without a return; the numeric component is unspecified
there and modelled as 0.) -/
def getAdler (strm : Stream) : Option JError × Int :=
  if strm.useIGZIP then
    (some (.internalError "igzip doesn't support getAdler function"), 0)
  else
    (none, (strm.zStream.adler : Int))

/-- `Java_htsjdk_samtools_util_zip_IntelDeflater_getBytesRead`: dispatch to
the active backend's `total_in`. -/
def getBytesRead (strm : Stream) : Nat :=
  if strm.useIGZIP then strm.lz2Stream.total_in else strm.zStream.total_in

/-- `Java_htsjdk_samtools_util_zip_IntelDeflater_getBytesWritten`: dispatch
to the active backend's `total_out`. -/
def getBytesWritten (strm : Stream) : Nat :=
  if strm.useIGZIP then strm.lz2Stream.total_out else strm.zStream.total_out

/-- `Java_htsjdk_samtools_util_zip_IntelDeflater_reset`: `init_stream` for
igzip, `deflateReset` for zlib (assumed consistent, hence `Z_OK`). -/
def reset (strm : Stream) : Stream :=
  if strm.useIGZIP then
    { strm with lz2Stream := igzip_init_stream }
  else
    { strm with zStream := zlib_deflateReset strm.zStream }

/-- Modelled from the spec: the Java-side `IntelDeflater.reset()` (the Java
class is not under `src/`; only its native half is) clears the `finished`
flag and re-issues the native reset, leaving the other object fields to be
re-staged by the caller. -/
def sessionReset (strm : Stream) (f : Fields) : Stream × Fields :=
  (reset strm, { f with finished := false })

/-- Whether a zlib step outcome is `Z_STREAM_END`. -/
def ZRes.isStreamEnd : ZRes → Bool
  | .zStreamEnd _ _ => true
  | _ => false

/-- The fresh Fast session `init` builds when it picks igzip. -/
def fastFresh : Stream :=
  { zStream := {}, lz2Stream := igzip_init_stream, useIGZIP := true }

/-- The fresh Standard session `init` builds when `deflateInit2` succeeds. -/
def standardFresh (level strategy : Int) (nowrap : Bool) : Stream :=
  { zStream := { total_in := 0, total_out := 0, adler := 1, msg := ""
                 level := level, strategy := strategy
                 windowBits := if nowrap then -MAX_WBITS else MAX_WBITS
                 memLevel := DEF_MEM_LEVEL }
    lz2Stream := {}, useIGZIP := false }

/-- A concrete Standard (zlib) session, as `init 6 0 false _ .zOk` returns it. -/
def zStd : Stream := standardFresh 6 0 false

/-- A concrete Fast (igzip) session, as `init 1 0 false true _` returns it. -/
def zFast : Stream := fastFresh

/-- Both buffer pins succeed. -/
def pinsOk : PinOracle := { inPinOk := true, outPinOk := true }

/-- A throwaway backend oracle for steps whose outcome fields are irrelevant
or explicitly stated. -/
def orcBuf : BackendOracle :=
  { fastRes := ⟨0, 2⟩, paramsRes := .zBufError, deflateRes := .zBufError }

lemma ite_oom_iff (c : Prop) [Decidable c] :
    ((if c then some JError.outOfMemory else none) = some JError.outOfMemory ↔ c) := by
  split <;> simp_all

/-- C1: at session creation, the Fast (igzip) backend is chosen iff the
requested level equals `FAST_COMPRESSION` (1) and the CPU probe returns
true; in every other case the Standard (zlib) backend is initialized with
the requested level, strategy, and framing mode (`-MAX_WBITS` when `nowrap`,
`MAX_WBITS` otherwise) and `DEF_MEM_LEVEL`. -/
theorem init_selects_backend (level strategy : Int) (nowrap sse42 : Bool) :
    (∃ s, init level strategy nowrap sse42 .zOk = .ok s ∧
        (s.useIGZIP = true ↔ (level = FAST_COMPRESSION ∧ sse42 = true))) ∧
    (¬ (level = FAST_COMPRESSION ∧ sse42 = true) →
      init level strategy nowrap sse42 .zOk =
        .ok (standardFresh level strategy nowrap)) := by
  by_cases h : level = FAST_COMPRESSION ∧ sse42 = true
  · refine ⟨⟨fastFresh, ?_, ?_⟩, fun hc => absurd h hc⟩
    · simp [init, h, fastFresh]
    · simp [h, fastFresh]
  · refine ⟨⟨standardFresh level strategy nowrap, ?_, ?_⟩, fun _ => ?_⟩
    · simp [init, h, standardFresh]
    · simp [h, standardFresh]
    · simp [init, h, standardFresh]

/-- Witness for C1 at level 6 (Standard is configured as requested). -/
theorem init_selects_backend_witness :
    init 6 0 false true .zOk = .ok (standardFresh 6 0 false) :=
  (init_selects_backend 6 0 false true).2 (by decide)

/-- C2 (counterexample): with a parameter change pending on the Standard
backend, a `Z_BUF_ERROR` from `deflateParams` makes the step return 0 but
CLEAR `setParams` — the claim says the flag is left set for a retry. -/
theorem deflateParams_bufError_clears_flag :
    (deflateBytes zStd { setParams := true, len := 5 } { len := 0 } pinsOk
        orcBuf).fields.setParams = false ∧
    (deflateBytes zStd { setParams := true, len := 5 } { len := 0 } pinsOk
        orcBuf).ret = 0 := by
  constructor <;> rfl

/-- C2 (amended): on the Standard backend with a parameter change pending, a
`Z_BUF_ERROR` from `deflateParams` makes the step return 0 with no
exception and the stream and offset/length fields unchanged, but the
`setParams` flag is cleared (the application is not retried on the next
call). -/
theorem deflateParams_bufError_step (strm : Stream) (f : Fields)
    (a : StepArgs) (orc : BackendOracle)
    (hstd : strm.useIGZIP = false) (hsp : f.setParams = true)
    (hbuf : orc.paramsRes = .zBufError) :
    deflateBytes strm f a ⟨true, true⟩ orc =
      { ret := 0, thrown := none, strm := strm
        fields := { f with setParams := false }
        trace := [.pinIn, .pinOut, .releaseOut, .releaseIn]
        assertFailed := false } := by
  simp [deflateBytes, hstd, hsp, hbuf]

/-- Witness for C2's amended theorem at a concrete session. -/
theorem deflateParams_bufError_step_witness :
    deflateBytes zStd { setParams := true, len := 5 } { len := 4 } ⟨true, true⟩
      orcBuf =
      { ret := 0, thrown := none, strm := zStd
        fields := { setParams := false, len := 5 }
        trace := [.pinIn, .pinOut, .releaseOut, .releaseIn]
        assertFailed := false } :=
  deflateParams_bufError_step zStd _ _ _ rfl rfl rfl

/-- C3 (code evaluated at the failing input): a SyncFlush (2) or FullFlush
(3) request against the Fast backend is NOT rejected — the rejection check
only tests `flush == 1`, so the step proceeds to pin the buffers and invoke
the igzip backend with the flush silently ignored, contradicting the
"reject any flush with UnsupportedOperation" rule (the code's own comment
says "igzip does not support flush"). -/
theorem fast_flush_not_rejected :
    (deflateBytes zFast { len := 4 } { len := 4, flush := Z_SYNC_FLUSH }
        pinsOk orcBuf).thrown = none ∧
    (deflateBytes zFast { len := 4 } { len := 4, flush := Z_FULL_FLUSH }
        pinsOk orcBuf).thrown = none ∧
    (deflateBytes zFast { len := 4 } { len := 4, flush := Z_SYNC_FLUSH }
        pinsOk orcBuf).trace = [.pinIn, .pinOut, .releaseOut, .releaseIn] := by
  refine ⟨?_, ?_, ?_⟩ <;> rfl

/-- C4 (counterexample): on the Fast backend a step with zero input length
and zero output capacity does not complete normally — it trips the source's
`assert(avail_in != 0)` (debug builds abort) instead of returning 0. -/
theorem fast_zero_zero_asserts :
    (deflateBytes zFast {} {} pinsOk orcBuf).assertFailed = true := by
  rfl

/-- C4 (amended): on the Standard backend (either with or without a pending
parameter change), a step with zero input length and zero output capacity —
on which zlib reports `Z_BUF_ERROR`, its documented "no progress possible"
outcome — returns 0, raises no error, and leaves the stream state, the
offset/length fields, and the `finished` flag unchanged; on the Fast
backend such a step trips the debug assertions instead. -/
theorem std_zero_zero_step_noop (strm : Stream) (f : Fields) (a : StepArgs)
    (orc : BackendOracle)
    (hstd : strm.useIGZIP = false) (_hlen : f.len = 0) (_hcap : a.len = 0)
    (hp : orc.paramsRes = .zBufError) (hd : orc.deflateRes = .zBufError) :
    (deflateBytes strm f a ⟨true, true⟩ orc).ret = 0 ∧
    (deflateBytes strm f a ⟨true, true⟩ orc).thrown = none ∧
    (deflateBytes strm f a ⟨true, true⟩ orc).assertFailed = false ∧
    (deflateBytes strm f a ⟨true, true⟩ orc).strm = strm ∧
    (deflateBytes strm f a ⟨true, true⟩ orc).fields.off = f.off ∧
    (deflateBytes strm f a ⟨true, true⟩ orc).fields.len = f.len ∧
    (deflateBytes strm f a ⟨true, true⟩ orc).fields.finished = f.finished := by
  by_cases hsp : f.setParams <;> simp [deflateBytes, hstd, hsp, hp, hd]

/-- Witness for C4's amended theorem at a concrete Standard session. -/
theorem std_zero_zero_step_noop_witness :
    (deflateBytes zStd {} {} ⟨true, true⟩ orcBuf).ret = 0 ∧
    (deflateBytes zStd {} {} ⟨true, true⟩ orcBuf).thrown = none ∧
    (deflateBytes zStd {} {} ⟨true, true⟩ orcBuf).assertFailed = false ∧
    (deflateBytes zStd {} {} ⟨true, true⟩ orcBuf).strm = zStd ∧
    (deflateBytes zStd {} {} ⟨true, true⟩ orcBuf).fields.off = Fields.off {} ∧
    (deflateBytes zStd {} {} ⟨true, true⟩ orcBuf).fields.len = Fields.len {} ∧
    (deflateBytes zStd {} {} ⟨true, true⟩ orcBuf).fields.finished =
      Fields.finished {} :=
  std_zero_zero_step_noop zStd {} {} orcBuf rfl rfl rfl rfl rfl

/-- C5 (counterexample): on the Fast backend with `finish` requested, the
step sets `finished := true` unconditionally, even when the backend left
unconsumed input (here 5 of 10 bytes remain because the 1-byte output
filled up) — i.e. the flag is set by a step that could not complete the
stream. -/
theorem fast_finish_sets_finished_with_leftover :
    (deflateBytes zFast { len := 10, finish := true } { len := 1 } pinsOk
        { fastRes := ⟨5, 0⟩, paramsRes := .zBufError,
          deflateRes := .zBufError }).fields.finished = true ∧
    (deflateBytes zFast { len := 10, finish := true } { len := 1 } pinsOk
        { fastRes := ⟨5, 0⟩, paramsRes := .zBufError,
          deflateRes := .zBufError }).fields.len = 5 := by
  constructor <;> rfl

/-- C5 (amended): the `finished` flag is monotone (only ever set, never
cleared, between resets): on the Standard normal path it becomes true
exactly when `deflate` reports `Z_STREAM_END`; the params-pending path never
touches it; on the Fast backend a completed step sets it whenever `finish`
was requested, regardless of whether the stream actually ended. -/
theorem finished_transition (strm : Stream) (f : Fields) (a : StepArgs)
    (orc : BackendOracle) :
    (strm.useIGZIP = false → f.setParams = false →
      (deflateBytes strm f a ⟨true, true⟩ orc).fields.finished =
        (f.finished || orc.deflateRes.isStreamEnd)) ∧
    (strm.useIGZIP = false → f.setParams = true →
      (deflateBytes strm f a ⟨true, true⟩ orc).fields.finished = f.finished) ∧
    (strm.useIGZIP = true →
      ¬ ((f.setParams ∧ strm.lz2Stream.total_in ≠ 0) ∨ a.flush = 1) →
      f.len ≠ 0 → a.len ≠ 0 →
      (deflateBytes strm f a ⟨true, true⟩ orc).fields.finished =
        (f.finished || f.finish)) := by
  refine ⟨fun hig hsp => ?_, fun hig hsp => ?_, fun hig hrej hlen hcap => ?_⟩
  · cases hres : orc.deflateRes <;>
      simp [deflateBytes, hig, hsp, hres, ZRes.isStreamEnd]
  · cases hres : orc.paramsRes <;>
      simp [deflateBytes, hig, hsp, hres]
  · simp only [deflateBytes, hig]
    rw [if_neg (fun hc => hrej hc.2)]
    simp [hlen, hcap]
    cases hfin : f.finish <;> simp

/-- Witness for C5's amended theorem: a Standard step on which `deflate`
reports `Z_STREAM_END` sets `finished`. -/
theorem finished_transition_witness :
    (deflateBytes zStd { len := 3 } { len := 8 } ⟨true, true⟩
        { fastRes := ⟨0, 2⟩, paramsRes := .zBufError,
          deflateRes := .zStreamEnd 0 4 }).fields.finished =
      (Fields.finished { len := 3 } || (ZRes.zStreamEnd 0 4).isStreamEnd) :=
  (finished_transition zStd { len := 3 } { len := 8 }
    { fastRes := ⟨0, 2⟩, paramsRes := .zBufError,
      deflateRes := .zStreamEnd 0 4 }).1 rfl rfl

/-- C6: on every non-rejected path, a failed input pin returns 0 and throws
`OutOfMemoryError` iff the staged input length is nonzero (with no pins
recorded), and a failed output pin returns 0, throws iff the requested
output capacity is nonzero, and releases the already-pinned input buffer
before returning; session state is untouched either way. -/
theorem pin_failure_behavior (strm : Stream) (f : Fields) (a : StepArgs)
    (orc : BackendOracle) (outOk : Bool)
    (hnr : ¬ (strm.useIGZIP ∧
      ((f.setParams ∧ strm.lz2Stream.total_in ≠ 0) ∨ a.flush = 1))) :
    ((deflateBytes strm f a ⟨false, outOk⟩ orc).ret = 0 ∧
     ((deflateBytes strm f a ⟨false, outOk⟩ orc).thrown =
        some .outOfMemory ↔ f.len ≠ 0) ∧
     (deflateBytes strm f a ⟨false, outOk⟩ orc).trace = [] ∧
     (deflateBytes strm f a ⟨false, outOk⟩ orc).strm = strm ∧
     (deflateBytes strm f a ⟨false, outOk⟩ orc).fields = f) ∧
    ((deflateBytes strm f a ⟨true, false⟩ orc).ret = 0 ∧
     ((deflateBytes strm f a ⟨true, false⟩ orc).thrown =
        some .outOfMemory ↔ a.len ≠ 0) ∧
     (deflateBytes strm f a ⟨true, false⟩ orc).trace =
        [.pinIn, .releaseIn] ∧
     (deflateBytes strm f a ⟨true, false⟩ orc).strm = strm ∧
     (deflateBytes strm f a ⟨true, false⟩ orc).fields = f) := by
  by_cases hig : strm.useIGZIP
  · have h2 : ¬ ((f.setParams ∧ strm.lz2Stream.total_in ≠ 0) ∨ a.flush = 1) :=
      fun h => hnr ⟨hig, h⟩
    constructor <;> simp [deflateBytes, hig, h2, ite_oom_iff]
  · by_cases hsp : f.setParams <;> constructor <;>
      simp [deflateBytes, hig, hsp, ite_oom_iff]

/-- Witness for C6 at a concrete Standard session: a failed input pin with a
nonzero staged length returns 0 (and, by the theorem, throws OOM). -/
theorem pin_failure_behavior_witness :
    (deflateBytes zStd { len := 7 } {} ⟨false, true⟩ orcBuf).ret = 0 ∧
    ((deflateBytes zStd { len := 7 } {} ⟨false, true⟩ orcBuf).thrown =
      some .outOfMemory ↔ (Fields.len { len := 7 } ≠ 0)) :=
  ⟨(pin_failure_behavior zStd { len := 7 } {} orcBuf true (by decide)).1.1,
   (pin_failure_behavior zStd { len := 7 } {} orcBuf true (by decide)).1.2.1⟩

/-- C7: on the Standard normal path (no params pending), an `Z_OK` or
`Z_STREAM_END` result advances the input offset field by exactly the bytes
consumed, sets the length field to the remaining input, and returns output
capacity minus remaining output room; `Z_BUF_ERROR` returns 0 with no error
and no state change; any other result raises `InternalError` carrying the
backend's diagnostic text. -/
theorem std_normal_step (strm : Stream) (f : Fields) (a : StepArgs)
    (orc : BackendOracle)
    (hstd : strm.useIGZIP = false) (hsp : f.setParams = false) :
    (∀ aIn aOut, orc.deflateRes = .zOk aIn aOut → aIn ≤ f.len → aOut ≤ a.len →
      (deflateBytes strm f a ⟨true, true⟩ orc).fields.off =
          f.off + (f.len - aIn) ∧
      (deflateBytes strm f a ⟨true, true⟩ orc).fields.len = aIn ∧
      (deflateBytes strm f a ⟨true, true⟩ orc).ret = (a.len : Int) - aOut ∧
      (deflateBytes strm f a ⟨true, true⟩ orc).thrown = none) ∧
    (∀ aIn aOut, orc.deflateRes = .zStreamEnd aIn aOut → aIn ≤ f.len →
        aOut ≤ a.len →
      (deflateBytes strm f a ⟨true, true⟩ orc).fields.off =
          f.off + (f.len - aIn) ∧
      (deflateBytes strm f a ⟨true, true⟩ orc).fields.len = aIn ∧
      (deflateBytes strm f a ⟨true, true⟩ orc).ret = (a.len : Int) - aOut ∧
      (deflateBytes strm f a ⟨true, true⟩ orc).thrown = none) ∧
    (orc.deflateRes = .zBufError →
      (deflateBytes strm f a ⟨true, true⟩ orc).ret = 0 ∧
      (deflateBytes strm f a ⟨true, true⟩ orc).thrown = none ∧
      (deflateBytes strm f a ⟨true, true⟩ orc).strm = strm ∧
      (deflateBytes strm f a ⟨true, true⟩ orc).fields = f) ∧
    (∀ m, orc.deflateRes = .zErr m →
      (deflateBytes strm f a ⟨true, true⟩ orc).thrown =
        some (.internalError m) ∧
      (deflateBytes strm f a ⟨true, true⟩ orc).ret = 0) := by
  refine ⟨fun aIn aOut hres _ _ => ?_, fun aIn aOut hres _ _ => ?_,
    fun hres => ?_, fun m hres => ?_⟩ <;>
      simp [deflateBytes, hstd, hsp, hres]

/-- Witness for C7 at a concrete step: consuming 3 of 5 staged bytes and
filling 6 of 8 output bytes. -/
theorem std_normal_step_witness :
    (deflateBytes zStd { len := 5, off := 10 } { len := 8 } ⟨true, true⟩
        { fastRes := ⟨0, 2⟩, paramsRes := .zBufError,
          deflateRes := .zOk 2 2 }).fields.off = 10 + (5 - 2) ∧
    (deflateBytes zStd { len := 5, off := 10 } { len := 8 } ⟨true, true⟩
        { fastRes := ⟨0, 2⟩, paramsRes := .zBufError,
          deflateRes := .zOk 2 2 }).fields.len = 2 ∧
    (deflateBytes zStd { len := 5, off := 10 } { len := 8 } ⟨true, true⟩
        { fastRes := ⟨0, 2⟩, paramsRes := .zBufError,
          deflateRes := .zOk 2 2 }).ret = ((8 : Nat) : Int) - 2 ∧
    (deflateBytes zStd { len := 5, off := 10 } { len := 8 } ⟨true, true⟩
        { fastRes := ⟨0, 2⟩, paramsRes := .zBufError,
          deflateRes := .zOk 2 2 }).thrown = none :=
  (std_normal_step zStd { len := 5, off := 10 } { len := 8 }
    { fastRes := ⟨0, 2⟩, paramsRes := .zBufError, deflateRes := .zOk 2 2 }
    rfl rfl).1 2 2 rfl (by decide) (by decide)

/-- C8: `getBytesRead`/`getBytesWritten` dispatch to the active backend's
own running totals (`total_in`/`total_out` of the live stream state), so
after a `reset` — which re-initialises the active backend — both report 0,
and the session-level reset leaves `finished` false. -/
theorem counters_follow_backend (strm : Stream) (f : Fields) :
    getBytesRead (reset strm) = 0 ∧
    getBytesWritten (reset strm) = 0 ∧
    (sessionReset strm f).2.finished = false ∧
    (strm.useIGZIP = true →
      getBytesRead strm = strm.lz2Stream.total_in ∧
      getBytesWritten strm = strm.lz2Stream.total_out) ∧
    (strm.useIGZIP = false →
      getBytesRead strm = strm.zStream.total_in ∧
      getBytesWritten strm = strm.zStream.total_out) := by
  by_cases hig : strm.useIGZIP <;>
    simp [getBytesRead, getBytesWritten, reset, sessionReset,
      igzip_init_stream, zlib_deflateReset, hig]

/-- Witness for C8 at a concrete Standard session. -/
theorem counters_follow_backend_witness :
    getBytesRead (reset zStd) = 0 ∧
    getBytesRead zStd = zStd.zStream.total_in :=
  ⟨(counters_follow_backend zStd {}).1,
   ((counters_follow_backend zStd {}).2.2.2.2 rfl).1⟩

/-- C9: `getAdler` throws (the "unsupported" `InternalError`) iff the active
backend is Fast; on the Standard backend it always succeeds and returns the
stream's running adler value.  The embedding's read-only type records that
the query never modifies session state. -/
theorem getAdler_dispatch (strm : Stream) :
    ((getAdler strm).1.isSome = true ↔ strm.useIGZIP = true) ∧
    (strm.useIGZIP = true → (getAdler strm).1 =
      some (.internalError "igzip doesn't support getAdler function")) ∧
    (strm.useIGZIP = false →
      getAdler strm = (none, (strm.zStream.adler : Int))) := by
  by_cases hig : strm.useIGZIP <;> simp [getAdler, hig]

/-- Witness for C9: on a concrete Standard session the checksum query
succeeds with the stream's adler value. -/
theorem getAdler_dispatch_witness :
    getAdler zStd = (none, (zStd.zStream.adler : Int)) :=
  (getAdler_dispatch zStd).2.2 rfl

end IntelDeflater
